import Mathlib

/-!
Verification development for the EagleEye_Dashboard statistics core.

The development shallowly embeds the two collaborating pieces of the
repository that carry the design decisions:

* `src/core/connectors/elasticsearch_connector.py` — the scoped search
  client (`_scope_index`, `_execute_search_request`, `search`);
* `src/core/stats.py` — the aggregation pipeline
  (`get_dashboard_statistics` and the seven fragment reducers).

JSON values are modelled by the inductive `JVal`; Python dictionaries are
association lists in insertion order, Python exceptions are modelled by
`Except String`, and the HTTP transport is an oracle mapping an attempt
number to either a status/body response or a network-level error.
Floating-point numbers do not occur in any of the verified paths, so
numeric JSON values are modelled as integers.
-/

namespace EagleEye

/-- A JSON-like value: null, booleans, strings, integers, arrays and
objects (objects are association lists in insertion order, as Python
dictionaries preserve insertion order). -/
inductive JVal : Type where
  | null : JVal
  | bool (b : Bool) : JVal
  | str (s : String) : JVal
  | int (n : Int) : JVal
  | arr (xs : List JVal) : JVal
  | obj (fs : List (String × JVal)) : JVal

/-- Python `d.get(k, default)`: succeeds on dictionaries, raises
(AttributeError) on any other receiver. -/
def dict_get (v : JVal) (k : String) (d : JVal) : Except String JVal :=
  match v with
  | .obj fs => .ok ((fs.lookup k).getD d)
  | _ => .error "AttributeError"

/-- Python `d[k]` on an expected dictionary: KeyError when the key is
missing, TypeError on a non-dictionary receiver. -/
def getitem (v : JVal) (k : String) : Except String JVal :=
  match v with
  | .obj fs =>
    match fs.lookup k with
    | some x => .ok x
    | none => .error "KeyError"
  | _ => .error "TypeError"

/-- Python iteration over an expected list: raises on non-list values. -/
def as_list (v : JVal) : Except String (List JVal) :=
  match v with
  | .arr xs => .ok xs
  | _ => .error "TypeError"

/-- Python `int(x)` as used on aggregation keys: integers pass through,
booleans coerce, decimal strings parse, anything else raises. -/
def py_int (v : JVal) : Except String Int :=
  match v with
  | .int n => .ok n
  | .bool b => .ok (if b then 1 else 0)
  | .str s =>
    match s.toInt? with
    | some n => .ok n
    | none => .error "ValueError"
  | _ => .error "ValueError"

/-- A JSON value used as a summand in Python integer arithmetic:
integers and booleans are numbers, everything else raises TypeError. -/
def py_num (v : JVal) : Except String Int :=
  match v with
  | .int n => .ok n
  | .bool b => .ok (if b then 1 else 0)
  | _ => .error "TypeError"

/-- Python `s.lower()`: defined on strings only. -/
def str_lower (v : JVal) : Except String String :=
  match v with
  | .str s => .ok s.toLower
  | _ => .error "AttributeError"

/-- Python `x[0]` on an expected list. -/
def index0 (v : JVal) : Except String JVal :=
  match v with
  | .arr (x :: _) => .ok x
  | .arr [] => .error "IndexError"
  | _ => .error "TypeError"

/-- Python truthiness of a JSON value. -/
def py_truthy (v : JVal) : Bool :=
  match v with
  | .null => false
  | .bool b => b
  | .str s => if s = "" then false else true
  | .int n => if n = 0 then false else true
  | .arr [] => false
  | .arr (_ :: _) => true
  | .obj [] => false
  | .obj (_ :: _) => true

/-- Python equality of a JSON value against a string literal (as in
`bucket["key"] not in ["", "0.0.0.0"]`). -/
def py_eq_str (v : JVal) (s : String) : Bool :=
  match v with
  | .str t => if t = s then true else false
  | _ => false

/-- Python truthiness of an optional string (None and the empty string
are falsy). -/
def opt_truthy (c : Option String) : Bool :=
  match c with
  | none => false
  | some s => if s = "" then false else true

/-- Membership of the colon character in a character list. -/
def list_has_colon : List Char → Bool
  | [] => false
  | c :: r => if c = ':' then true else list_has_colon r

/-- Python `":" in index` (single-character substring test). -/
def has_colon (s : String) : Bool :=
  list_has_colon s.data

/-! ### Scoped search client (`elasticsearch_connector.py`) -/

/-- The connector's `_scope_index`: leave the pattern unchanged when no
client is set (None or empty string, following Python truthiness), leave
it unchanged when it already contains the `:` delimiter, and otherwise
prepend `client:`. -/
def scope_index (client_name : Option String) (index : String) : String :=
  if opt_truthy client_name = false then index
  else if has_colon index then index
  else client_name.getD "" ++ ":" ++ index

/-- The connector's retry budget (`self.max_retries = 2`). -/
def max_retries : Nat := 2

/-- The connector's backoff base in seconds (`self.retry_backoff = 1.5`). -/
def retry_backoff : ℚ := 3 / 2

/-- Outcome of one HTTP POST attempt: either a decoded response with a
status code, or a network-level request failure (connection refused,
timeout, DNS failure, or an undecodable body — all of which surface as
`requests.exceptions.RequestException`). -/
inductive TransportResult : Type where
  | response (status : Int) (body : JVal) : TransportResult
  | netError : TransportResult

/-- Observable outcome of `_execute_search_request`: the returned body,
the number of attempts actually made, and the list of backoff sleeps (in
seconds) performed between attempts. -/
structure ExecTrace : Type where
  body : JVal
  attempts : Nat
  sleeps : List ℚ

/-- The retry loop of `_execute_search_request`, parameterised by a
transport oracle giving the outcome of each attempt.  `attempt` is the
zero-based loop counter, `fuel` the number of remaining loop iterations
(`range(max_retries + 1)`), and `sleeps` the backoff sleeps made so far.
A 200 response returns its body; any other status returns the empty
response immediately; a network failure sleeps
`retry_backoff * (attempt + 1)` and retries while attempts remain, and
otherwise returns the empty response. -/
def execute_search_request (t : Nat → TransportResult) :
    Nat → Nat → List ℚ → ExecTrace
  | attempt, 0, sleeps => ⟨JVal.obj [], attempt, sleeps⟩
  | attempt, fuel + 1, sleeps =>
    match t attempt with
    | .response s body =>
      if s = 200 then ⟨body, attempt + 1, sleeps⟩
      else ⟨JVal.obj [], attempt + 1, sleeps⟩
    | .netError =>
      if attempt < max_retries then
        execute_search_request t (attempt + 1) fuel
          (sleeps ++ [retry_backoff * ((attempt : ℚ) + 1)])
      else ⟨JVal.obj [], attempt + 1, sleeps⟩

/-- Run the full retry loop (`for attempt in range(self.max_retries + 1)`). -/
def exec_search (t : Nat → TransportResult) : ExecTrace :=
  execute_search_request t 0 (max_retries + 1) []

/-- The connector's `search`: scope the index, send the query to the
scoped search endpoint, and return the body produced by the retry loop.
The transport oracle is keyed by the scoped index, the query body and
the attempt number. -/
def search (client_name : Option String)
    (t : String → JVal → Nat → TransportResult)
    (index : String) (body : JVal) : JVal :=
  let scoped_index := scope_index client_name index
  (exec_search (t scoped_index body)).body

/-! ### Query bodies built by `stats.py` -/

/-- The `range` filter on `@timestamp` shared by most fragment queries. -/
def time_range_query (es_time_range : String) : JVal :=
  .obj [("range", .obj [("@timestamp",
    .obj [("gte", .str es_time_range), ("lte", .str "now")])])]

/-- Query body of `_get_alerts_per_hour`. -/
def alerts_per_hour_query (es_time_range interval : String) : JVal :=
  .obj [("query", time_range_query es_time_range),
        ("size", .int 0),
        ("aggs", .obj [("alerts_per_hour", .obj [("date_histogram",
          .obj [("field", .str "@timestamp"),
                ("calendar_interval", .str interval),
                ("format", .str "yyyy-MM-dd HH:mm:ss")])])])]

/-- Query body of `_get_severity_breakdown`. -/
def severity_breakdown_query (es_time_range : String) : JVal :=
  .obj [("size", .int 0),
        ("query", time_range_query es_time_range),
        ("aggs", .obj [("severity_breakdown", .obj [("terms",
          .obj [("field", .str "rule.level"), ("size", .int 20)])])])]

/-- Query body of `_get_top_rules`. -/
def top_rules_query (es_time_range : String) : JVal :=
  .obj [("size", .int 0),
        ("query", time_range_query es_time_range),
        ("aggs", .obj [("top_rules", .obj [("terms",
          .obj [("field", .str "rule.description"), ("size", .int 10)])])])]

/-- Query body of `_get_top_agents`. -/
def top_agents_query : JVal :=
  .obj [("query", .obj [("match_all", .obj [])]),
        ("size", .int 0),
        ("aggs", .obj [("top_agents", .obj [("terms",
          .obj [("field", .str "agent.name"), ("size", .int 10)])])])]

/-- Query body of `_get_top_source_ips`. -/
def top_source_ips_query (es_time_range : String) : JVal :=
  .obj [("query", time_range_query es_time_range),
        ("size", .int 0),
        ("aggs", .obj [("top_source_ips", .obj [
          ("terms", .obj [("field", .str "data.office365.ClientIP"),
                          ("size", .int 10)]),
          ("aggs", .obj [("country", .obj [("terms",
            .obj [("field", .str "GeoLocation.country_name"),
                  ("size", .int 1)])])])])])]

/-- Query body of `_get_alert_trends`. -/
def alert_trends_query (es_time_range : String) : JVal :=
  .obj [("size", .int 0),
        ("query", time_range_query es_time_range),
        ("aggs", .obj [("daily_trends", .obj [("date_histogram",
          .obj [("field", .str "@timestamp"),
                ("calendar_interval", .str "day"),
                ("format", .str "yyyy-MM-dd")])])])]

/-- Query body of `_get_agent_status`. -/
def agent_status_query : JVal :=
  .obj [("size", .int 0),
        ("query", .obj [("bool", .obj [
          ("must", .arr [.obj [("range", .obj [("timestamp",
            .obj [("gte", .str "now-2h")])])]]),
          ("must_not", .arr [.obj [("term", .obj [("id", .str "000")])]])])]),
        ("aggs", .obj [("agents", .obj [
          ("terms", .obj [("field", .str "id"), ("size", .int 1000)]),
          ("aggs", .obj [("latest", .obj [("top_hits", .obj [
            ("size", .int 1),
            ("sort", .arr [.obj [("timestamp", .str "desc")]]),
            ("_source", .arr [.str "status", .str "name"])])])])])])]

/-! ### Fragment reducers (`stats.py`)

Each `..._from` function is the body of a `_get_...` function in
`stats.py` applied to an already-fetched search result: it extracts the
aggregation buckets with Python `dict.get` chains, reduces them, and on
any exception falls back to the fragment's empty value, exactly as the
`try`/`except` of the source does.  The surrounding `get_...` functions
restore the query construction and the `search` call. -/

/-- Extract `result.get("aggregations", {}).get(agg, {}).get("buckets", [])`
as a list to iterate over. -/
def agg_buckets (result : JVal) (agg : String) : Except String (List JVal) := do
  let aggs ← dict_get result "aggregations" (.obj [])
  let sub ← dict_get aggs agg (.obj [])
  let bucketsv ← dict_get sub "buckets" (.arr [])
  as_list bucketsv

/-- Bucket loop of `_get_alerts_per_hour`: each bucket becomes a
dictionary with the bucket's `key_as_string` under `timestamp` and its
`doc_count` under `count`. -/
def alerts_per_hour_entries : List JVal → Except String (List JVal)
  | [] => .ok []
  | b :: rest => do
    let ks ← getitem b "key_as_string"
    let dc ← getitem b "doc_count"
    let tail ← alerts_per_hour_entries rest
    pure (JVal.obj [("timestamp", ks), ("count", dc)] :: tail)

/-- Reduction step of `_get_alerts_per_hour` (the body of its `try`). -/
def alerts_per_hour_reduce (result : JVal) : Except String (List JVal) := do
  alerts_per_hour_entries (← agg_buckets result "alerts_per_hour")

/-- The `_get_alerts_per_hour` fragment on a search result. -/
def alerts_per_hour_from (result : JVal) : List (String × JVal) :=
  match alerts_per_hour_reduce result with
  | .ok entries => [("alerts_per_hour", .arr entries)]
  | .error _ => [("alerts_per_hour", .arr [])]

/-- First phase of `_get_severity_breakdown`: the comprehension building
`severity_data`, kept as (level, raw doc_count) pairs; the JSON entry list
is recovered by `severity_entries`. -/
def severity_pairs : List JVal → Except String (List (Int × JVal))
  | [] => .ok []
  | b :: rest => do
    let k ← getitem b "key"
    let lvl ← py_int k
    let dc ← getitem b "doc_count"
    let tail ← severity_pairs rest
    pure ((lvl, dc) :: tail)

/-- The `severity_data` dictionaries built by `_get_severity_breakdown`. -/
def severity_entries (ps : List (Int × JVal)) : List JVal :=
  ps.map (fun p => JVal.obj [("level", .int p.1), ("count", p.2)])

/-- One step of the severity band accumulation loop: add `cnt` to the
band selected by `lvl` in the (critical, high, medium, low) accumulator. -/
def band_add (acc : Int × Int × Int × Int) (lvl cnt : Int) :
    Int × Int × Int × Int :=
  match acc with
  | (c, h, m, l) =>
    if lvl ≥ 15 then (c + cnt, h, m, l)
    else if lvl ≥ 12 then (c, h + cnt, m, l)
    else if lvl ≥ 7 then (c, h, m + cnt, l)
    else (c, h, m, l + cnt)

/-- Second phase of `_get_severity_breakdown`: the summary loop, reading
each entry's level and count (`b.get("count", 0)`) and accumulating per
band; a non-numeric count raises as in Python `+=`. -/
def severity_summary_loop :
    List (Int × JVal) → Int × Int × Int × Int → Except String (Int × Int × Int × Int)
  | [], acc => .ok acc
  | (lvl, dc) :: rest, acc => do
    let cnt ← py_num dc
    severity_summary_loop rest (band_add acc lvl cnt)

/-- Reduction step of `_get_severity_breakdown` on a search result:
either the entry list together with the four band totals, or an error. -/
def severity_breakdown_reduce (result : JVal) :
    Except String (List (Int × JVal) × (Int × Int × Int × Int)) := do
  let buckets ← agg_buckets result "severity_breakdown"
  let ps ← severity_pairs buckets
  let sums ← severity_summary_loop ps (0, 0, 0, 0)
  pure (ps, sums)

/-- The `_get_severity_breakdown` fragment on a search result: on
success a `severity_breakdown` list and a `severity_summary` object with
the four bands; on any exception both keys at their except-branch values
(an empty list and an empty dictionary). -/
def severity_breakdown_from (result : JVal) : List (String × JVal) :=
  match severity_breakdown_reduce result with
  | .ok (ps, (c, h, m, l)) =>
    [("severity_breakdown", .arr (severity_entries ps)),
     ("severity_summary", .obj [("critical", .int c), ("high", .int h),
                                ("medium", .int m), ("low", .int l)])]
  | .error _ =>
    [("severity_breakdown", .arr []), ("severity_summary", .obj [])]

/-- Bucket loop of `_get_top_rules`. -/
def top_rules_entries : List JVal → Except String (List JVal)
  | [] => .ok []
  | b :: rest => do
    let k ← getitem b "key"
    let dc ← getitem b "doc_count"
    let tail ← top_rules_entries rest
    pure (JVal.obj [("description", k), ("count", dc)] :: tail)

/-- Reduction step of `_get_top_rules` (the body of its `try`). -/
def top_rules_reduce (result : JVal) : Except String (List JVal) := do
  top_rules_entries (← agg_buckets result "top_rules")

/-- The `_get_top_rules` fragment on a search result. -/
def top_rules_from (result : JVal) : List (String × JVal) :=
  match top_rules_reduce result with
  | .ok entries => [("top_rules", .arr entries)]
  | .error _ => [("top_rules", .arr [])]

/-- Bucket loop of `_get_top_agents`. -/
def top_agents_entries : List JVal → Except String (List JVal)
  | [] => .ok []
  | b :: rest => do
    let k ← getitem b "key"
    let dc ← getitem b "doc_count"
    let tail ← top_agents_entries rest
    pure (JVal.obj [("agent_name", k), ("count", dc)] :: tail)

/-- Reduction step of `_get_top_agents` (the body of its `try`). -/
def top_agents_reduce (result : JVal) : Except String (List JVal) := do
  top_agents_entries (← agg_buckets result "top_agents")

/-- The `_get_top_agents` fragment on a search result. -/
def top_agents_from (result : JVal) : List (String × JVal) :=
  match top_agents_reduce result with
  | .ok entries => [("top_agents", .arr entries)]
  | .error _ => [("top_agents", .arr [])]

/-- Bucket comprehension of `_get_top_source_ips`: the filter
`bucket["key"] not in ["", "0.0.0.0"]` is evaluated first; for retained
buckets the entry is built, reading the country from
`bucket.get("country", {}).get("buckets", [{}])[0].get("key", "Unknown")`. -/
def top_source_ips_entries : List JVal → Except String (List JVal)
  | [] => .ok []
  | b :: rest => do
    let k ← getitem b "key"
    if py_eq_str k "" || py_eq_str k "0.0.0.0" then
      top_source_ips_entries rest
    else do
      let dc ← getitem b "doc_count"
      let country_agg ← dict_get b "country" (.obj [])
      let cbv ← dict_get country_agg "buckets" (.arr [.obj []])
      let first ← index0 cbv
      let country ← dict_get first "key" (.str "Unknown")
      let tail ← top_source_ips_entries rest
      pure (JVal.obj [("ip", k), ("count", dc), ("country", country)] :: tail)

/-- Reduction step of `_get_top_source_ips` (the body of its `try`). -/
def top_source_ips_reduce (result : JVal) : Except String (List JVal) := do
  top_source_ips_entries (← agg_buckets result "top_source_ips")

/-- The `_get_top_source_ips` fragment on a search result. -/
def top_source_ips_from (result : JVal) : List (String × JVal) :=
  match top_source_ips_reduce result with
  | .ok entries => [("top_source_ips", .arr entries)]
  | .error _ => [("top_source_ips", .arr [])]

/-- Bucket loop of `_get_alert_trends`: each bucket becomes a dictionary
with the bucket's `key_as_string` under `date` and its `doc_count` under
`count`. -/
def alert_trends_entries : List JVal → Except String (List JVal)
  | [] => .ok []
  | b :: rest => do
    let ks ← getitem b "key_as_string"
    let dc ← getitem b "doc_count"
    let tail ← alert_trends_entries rest
    pure (JVal.obj [("date", ks), ("count", dc)] :: tail)

/-- Reduction step of `_get_alert_trends` (the body of its `try`). -/
def alert_trends_reduce (result : JVal) : Except String (List JVal) := do
  alert_trends_entries (← agg_buckets result "daily_trends")

/-- The `_get_alert_trends` fragment on a search result. -/
def alert_trends_from (result : JVal) : List (String × JVal) :=
  match alert_trends_reduce result with
  | .ok entries => [("alert_trends", .arr entries)]
  | .error _ => [("alert_trends", .arr [])]

/-- Bucket loop of `_get_agent_status`: a bucket with a non-empty
`latest.hits.hits` list counts as online when its first hit's
`_source.status`, lowercased, is `active` or `connected`, and as offline
otherwise; a bucket with no latest hits counts in neither tally. -/
def agent_status_loop : List JVal → Int → Int → Except String (Int × Int)
  | [], online, offline => .ok (online, offline)
  | b :: rest, online, offline => do
    let latest ← dict_get b "latest" (.obj [])
    let hitsv ← dict_get latest "hits" (.obj [])
    let latest_hits ← dict_get hitsv "hits" (.arr [])
    if py_truthy latest_hits then do
      let h0 ← index0 latest_hits
      let src ← dict_get h0 "_source" (.obj [])
      let stv ← dict_get src "status" (.str "")
      let status ← str_lower stv
      if status = "active" || status = "connected" then
        agent_status_loop rest (online + 1) offline
      else
        agent_status_loop rest online (offline + 1)
    else
      agent_status_loop rest online offline

/-- Reduction step of `_get_agent_status` (the body of its `try`). -/
def agent_status_reduce (result : JVal) : Except String (Int × Int) := do
  agent_status_loop (← agg_buckets result "agents") 0 0

/-- The `_get_agent_status` fragment on a search result. -/
def agent_status_from (result : JVal) : List (String × JVal) :=
  match agent_status_reduce result with
  | .ok (online, offline) =>
    [("agent_health", .obj [("total", .int (online + offline)),
                            ("online", .int online),
                            ("offline", .int offline)])]
  | .error _ =>
    [("agent_health", .obj [("total", .int 0), ("online", .int 0),
                            ("offline", .int 0)])]

/-! ### Fragment functions with their queries -/

/-- `_get_alerts_per_hour`: build the query, search, reduce. -/
def get_alerts_per_hour (searchF : String → JVal → JVal)
    (index es_time_range interval : String) : List (String × JVal) :=
  alerts_per_hour_from (searchF index (alerts_per_hour_query es_time_range interval))

/-- `_get_severity_breakdown`: build the query, search, reduce. -/
def get_severity_breakdown (searchF : String → JVal → JVal)
    (index es_time_range : String) : List (String × JVal) :=
  severity_breakdown_from (searchF index (severity_breakdown_query es_time_range))

/-- `_get_top_rules`: build the query, search, reduce. -/
def get_top_rules (searchF : String → JVal → JVal)
    (index es_time_range : String) : List (String × JVal) :=
  top_rules_from (searchF index (top_rules_query es_time_range))

/-- `_get_top_agents`: build the query, search, reduce. -/
def get_top_agents (searchF : String → JVal → JVal)
    (index : String) : List (String × JVal) :=
  top_agents_from (searchF index top_agents_query)

/-- `_get_top_source_ips`: build the query, search, reduce. -/
def get_top_source_ips (searchF : String → JVal → JVal)
    (index es_time_range : String) : List (String × JVal) :=
  top_source_ips_from (searchF index (top_source_ips_query es_time_range))

/-- `_get_alert_trends`: build the query, search, reduce. -/
def get_alert_trends (searchF : String → JVal → JVal)
    (index es_time_range : String) : List (String × JVal) :=
  alert_trends_from (searchF index (alert_trends_query es_time_range))

/-- `_get_agent_status`: build the query, search, reduce. -/
def get_agent_status (searchF : String → JVal → JVal)
    (index : String) : List (String × JVal) :=
  agent_status_from (searchF index agent_status_query)

/-! ### The statistics pipeline (`get_dashboard_statistics`) -/

/-- Python dictionary assignment `d[k] = v`: replace the value in place
when the key exists, append the pair otherwise. -/
def set_key : List (String × JVal) → String → JVal → List (String × JVal)
  | [], k, v => [(k, v)]
  | (k', v') :: rest, k, v =>
    if k' = k then (k', v) :: rest else (k', v') :: set_key rest k v

/-- Python `d.update(e)`: assign each of `e`'s pairs into `d` in order. -/
def dict_update (d e : List (String × JVal)) : List (String × JVal) :=
  match e with
  | [] => d
  | (k, v) :: rest => dict_update (set_key d k v) rest

/-- The `time_map` lookup table of `get_dashboard_statistics`. -/
def time_map : List (String × String) :=
  [("24h", "now-24h"), ("7d", "now-7d"), ("30d", "now-30d")]

/-- The `interval_map` lookup table of `get_dashboard_statistics`. -/
def interval_map : List (String × String) :=
  [("24h", "1h"), ("7d", "6h"), ("30d", "1d")]

/-- The error object returned by the `except` branch of
`get_dashboard_statistics`: the error string, the seven fragment fields
at their empty values (`severity_summary` as an empty dictionary), and
no `critical_alerts` or `total_alerts` keys. -/
def error_stats (e : String) : List (String × JVal) :=
  [("error", .str e),
   ("alerts_per_hour", .arr []),
   ("severity_breakdown", .arr []),
   ("severity_summary", .obj []),
   ("top_rules", .arr []),
   ("top_agents", .arr []),
   ("top_source_ips", .arr []),
   ("alert_trends", .arr []),
   ("agent_health", .obj [("total", .int 0), ("online", .int 0),
                          ("offline", .int 0)])]

/-- Python `sum(summary.values())` over a JSON object. -/
def sum_values : List (String × JVal) → Except String Int
  | [] => .ok 0
  | (_, v) :: rest => do
    let n ← py_num v
    let s ← sum_values rest
    pure (n + s)

/-- Python `sum(summary.values())` on a JSON value expected to be a
dictionary. -/
def sum_values_j (v : JVal) : Except String JVal :=
  match v with
  | .obj fs => do pure (JVal.int (← sum_values fs))
  | _ => .error "AttributeError"

/-- The alert index pattern chosen by `get_dashboard_statistics`
(`"{client}:wazuh-alerts-*"` for a truthy client, global otherwise). -/
def alert_index_of (client_name : Option String) : String :=
  if opt_truthy client_name then client_name.getD "" ++ ":wazuh-alerts-*"
  else "wazuh-alerts-*"

/-- The monitoring index pattern chosen by `get_dashboard_statistics`. -/
def monitoring_index_of (client_name : Option String) : String :=
  if opt_truthy client_name then client_name.getD "" ++ ":wazuh-monitoring-*"
  else "wazuh-monitoring-*"

/-- Body of the `try` block of `get_dashboard_statistics`, in the
exception monad: resolve the configuration (`gc` models
`config.get_elasticsearch_config`, the only step of the pipeline that
can realistically raise), resolve index patterns and the time window,
run and merge the seven fragments, then append the two derived totals. -/
def stats_pipeline (gc : Option String → Except String Unit)
    (t : String → JVal → Nat → TransportResult)
    (client_name : Option String) (time_range : String) :
    Except String (List (String × JVal)) := do
  let _ ← gc client_name
  let searchF := search client_name t
  let alert_index := alert_index_of client_name
  let monitoring_index := monitoring_index_of client_name
  let es_time_range := (time_map.lookup time_range).getD "now-24h"
  let histogram_interval := (interval_map.lookup time_range).getD "1h"
  let stats := dict_update []
    (get_alerts_per_hour searchF alert_index es_time_range histogram_interval)
  let sev_result := get_severity_breakdown searchF alert_index es_time_range
  let stats := dict_update stats
    [("severity_breakdown", ((sev_result.lookup "severity_breakdown").getD (.arr [])))]
  let stats := dict_update stats
    [("severity_summary", ((sev_result.lookup "severity_summary").getD (.obj [])))]
  let stats := dict_update stats (get_top_rules searchF alert_index es_time_range)
  let stats := dict_update stats (get_top_agents searchF alert_index)
  let stats := dict_update stats (get_top_source_ips searchF alert_index es_time_range)
  let stats := dict_update stats (get_alert_trends searchF alert_index es_time_range)
  let stats := dict_update stats (get_agent_status searchF monitoring_index)
  let summary := (stats.lookup "severity_summary").getD (.obj [])
  let crit ← dict_get summary "critical" (.int 0)
  let stats := set_key stats "critical_alerts" crit
  let total ← if py_truthy summary then sum_values_j summary else pure (JVal.int 0)
  let stats := set_key stats "total_alerts" total
  pure stats

/-- `get_dashboard_statistics`: the pipeline body with its enclosing
`try`/`except`, which degrades any pipeline-level exception to the
error-annotated empty statistics object. -/
def get_dashboard_statistics (gc : Option String → Except String Unit)
    (t : String → JVal → Nat → TransportResult)
    (client_name : Option String) (time_range : String) :
    List (String × JVal) :=
  match stats_pipeline gc t client_name time_range with
  | .ok stats => stats
  | .error e => error_stats e

/-! ### Per-fragment view of the pipeline -/

/-- The seven independent fragment queries issued by one statistics call. -/
inductive Frag : Type where
  | hours | sev | rules | agentsTop | ips | trends | health
deriving DecidableEq

/-- The (already scoped) index each fragment query is sent to. -/
def frag_index (client_name : Option String) : Frag → String
  | .health => scope_index client_name (monitoring_index_of client_name)
  | _ => scope_index client_name (alert_index_of client_name)

/-- The query body each fragment sends, given the resolved time window. -/
def frag_query (es_time_range interval : String) : Frag → JVal
  | .hours => alerts_per_hour_query es_time_range interval
  | .sev => severity_breakdown_query es_time_range
  | .rules => top_rules_query es_time_range
  | .agentsTop => top_agents_query
  | .ips => top_source_ips_query es_time_range
  | .trends => alert_trends_query es_time_range
  | .health => agent_status_query

/-- The reduction (with its `try`/`except` fallback) each fragment
applies to its own search result. -/
def frag_entries (result : JVal) : Frag → List (String × JVal)
  | .hours => alerts_per_hour_from result
  | .sev => severity_breakdown_from result
  | .rules => top_rules_from result
  | .agentsTop => top_agents_from result
  | .ips => top_source_ips_from result
  | .trends => alert_trends_from result
  | .health => agent_status_from result

/-- The statistics assembly as a function of the seven per-fragment
search results: the same merge and totals computation as
`stats_pipeline`, with each fragment reduced from its own response
independently of the others. -/
def stats_from_responses (resp : Frag → JVal) :
    Except String (List (String × JVal)) := do
  let stats := dict_update [] (alerts_per_hour_from (resp .hours))
  let sev_result := severity_breakdown_from (resp .sev)
  let stats := dict_update stats
    [("severity_breakdown", ((sev_result.lookup "severity_breakdown").getD (.arr [])))]
  let stats := dict_update stats
    [("severity_summary", ((sev_result.lookup "severity_summary").getD (.obj [])))]
  let stats := dict_update stats (top_rules_from (resp .rules))
  let stats := dict_update stats (top_agents_from (resp .agentsTop))
  let stats := dict_update stats (top_source_ips_from (resp .ips))
  let stats := dict_update stats (alert_trends_from (resp .trends))
  let stats := dict_update stats (agent_status_from (resp .health))
  let summary := (stats.lookup "severity_summary").getD (.obj [])
  let crit ← dict_get summary "critical" (.int 0)
  let stats := set_key stats "critical_alerts" crit
  let total ← if py_truthy summary then sum_values_j summary else pure (JVal.int 0)
  let stats := set_key stats "total_alerts" total
  pure stats

/-- The per-fragment assembly with the pipeline's own `try`/`except`
fallback around it. -/
def dashboard_from_responses (resp : Frag → JVal) : List (String × JVal) :=
  match stats_from_responses resp with
  | .ok stats => stats
  | .error e => error_stats e

/-- The value a fragment reduces the empty response (an empty
dictionary, the connector's non-200 and retries-exhausted fallback) to:
empty lists and zero counts, with the four severity bands present at
zero because the summary loop runs over zero buckets. -/
def empty_frag_non200 : Frag → List (String × JVal)
  | .hours => [("alerts_per_hour", .arr [])]
  | .sev => [("severity_breakdown", .arr []),
             ("severity_summary", .obj [("critical", .int 0), ("high", .int 0),
                                        ("medium", .int 0), ("low", .int 0)])]
  | .rules => [("top_rules", .arr [])]
  | .agentsTop => [("top_agents", .arr [])]
  | .ips => [("top_source_ips", .arr [])]
  | .trends => [("alert_trends", .arr [])]
  | .health => [("agent_health", .obj [("total", .int 0), ("online", .int 0),
                                       ("offline", .int 0)])]

/-- The value a fragment's `except` branch returns when its reduction
raises: empty lists and zero counts, with the severity summary as an
empty dictionary. -/
def empty_frag_exc : Frag → List (String × JVal)
  | .hours => [("alerts_per_hour", .arr [])]
  | .sev => [("severity_breakdown", .arr []), ("severity_summary", .obj [])]
  | .rules => [("top_rules", .arr [])]
  | .agentsTop => [("top_agents", .arr [])]
  | .ips => [("top_source_ips", .arr [])]
  | .trends => [("alert_trends", .arr [])]
  | .health => [("agent_health", .obj [("total", .int 0), ("online", .int 0),
                                       ("offline", .int 0)])]

/-- The proposition that a fragment's reduction step raises an exception
on the given search result. -/
def frag_raises (result : JVal) : Frag → Prop
  | .hours => ∃ e, alerts_per_hour_reduce result = .error e
  | .sev => ∃ e, severity_breakdown_reduce result = .error e
  | .rules => ∃ e, top_rules_reduce result = .error e
  | .agentsTop => ∃ e, top_agents_reduce result = .error e
  | .ips => ∃ e, top_source_ips_reduce result = .error e
  | .trends => ∃ e, alert_trends_reduce result = .error e
  | .health => ∃ e, agent_status_reduce result = .error e

/-! ### Concrete response encoders used in the statements -/

/-- A minimal engine response carrying one terms aggregation. -/
def agg_response (agg : String) (bkts : List JVal) : JVal :=
  .obj [("aggregations", .obj [(agg, .obj [("buckets", .arr bkts)])])]

/-- The name of the first aggregation requested by a query body (used
only to build concrete transport oracles that tell the seven pipeline
queries apart). -/
def agg_name_of (q : JVal) : String :=
  match q with
  | .obj fs =>
    match fs.lookup "aggs" with
    | some (.obj ((k, _) :: _)) => k
    | _ => ""
  | _ => ""

/-- Encode an (ip, count, country) triple as a source-IP aggregation
bucket whose country sub-aggregation has exactly one entry. -/
def encode_ip_bucket (x : String × Int × String) : JVal :=
  .obj [("key", .str x.1), ("doc_count", .int x.2.1),
        ("country", .obj [("buckets",
          .arr [.obj [("key", .str x.2.2), ("doc_count", .int x.2.1)]])])]

/-- The output entry `_get_top_source_ips` produces for a retained
encoded bucket. -/
def ip_entry (x : String × Int × String) : JVal :=
  .obj [("ip", .str x.1), ("count", .int x.2.1), ("country", .str x.2.2)]

/-- The retention test of `_get_top_source_ips` on an encoded bucket:
the key is neither the empty string nor the all-zero address. -/
def ip_kept (x : String × Int × String) : Bool :=
  !(x.1 == "" || x.1 == "0.0.0.0")

/-- Encode a (formatted key, doc count) pair as a date-histogram bucket. -/
def encode_time_bucket (p : JVal × JVal) : JVal :=
  .obj [("key_as_string", p.1), ("doc_count", p.2)]

/-- Encode an (agent id, latest hit statuses) pair as an agent-health
aggregation bucket whose `latest` top-hits carry the given statuses. -/
def encode_agent_bucket (b : String × List String) : JVal :=
  .obj [("key", .str b.1), ("doc_count", .int 1),
        ("latest", .obj [("hits", .obj [("hits",
          .arr (b.2.map (fun st =>
            .obj [("_source", .obj [("status", .str st), ("name", .str b.1)])])))])])]

/-- An encoded agent bucket has at least one latest hit. -/
def agent_present (b : String × List String) : Bool :=
  !b.2.isEmpty

/-- An encoded agent bucket counts as online: its first latest status,
lowercased, is `active` or `connected`. -/
def agent_online (b : String × List String) : Bool :=
  match b.2 with
  | [] => false
  | s :: _ => s.toLower == "active" || s.toLower == "connected"

/-- Number of encoded agent buckets counted online. -/
def count_online : List (String × List String) → Int
  | [] => 0
  | b :: r => (if agent_online b then 1 else 0) + count_online r

/-- Number of encoded agent buckets counted offline (present but not
online). -/
def count_offline : List (String × List String) → Int
  | [] => 0
  | b :: r => (if agent_present b && !agent_online b then 1 else 0) + count_offline r

/-- Number of encoded agent buckets with at least one latest hit. -/
def count_present : List (String × List String) → Int
  | [] => 0
  | b :: r => (if agent_present b then 1 else 0) + count_present r

/-- A concrete transport that answers the severity query with a 500 and
every other query with an empty 200 response (used to exhibit failure
isolation at a concrete input). -/
def demo_transport : String → JVal → Nat → TransportResult :=
  fun _ q _ =>
    if agg_name_of q = "severity_breakdown" then .response 500 .null
    else .response 200 (.obj [])

/-! ## Theorems -/

/-- A character list containing an explicit colon passes the colon test. -/
theorem list_has_colon_append (l1 l2 : List Char) :
    list_has_colon (l1 ++ ':' :: l2) = true := by
  induction l1 with
  | nil => simp [list_has_colon]
  | cons c r ih =>
    simp only [List.cons_append, list_has_colon]
    split
    · rfl
    · exact ih

/-- A freshly scoped pattern contains the delimiter. -/
theorem has_colon_scoped (c p : String) : has_colon (c ++ ":" ++ p) = true := by
  have h : (c ++ ":" ++ p).data = c.data ++ ':' :: p.data := by
    simp [String.data_append]
  rw [has_colon, h]
  exact list_has_colon_append c.data p.data

/-- C2: `scope_index` returns the pattern unchanged when no tenant is
set, returns a pattern already containing the `:` delimiter unchanged,
otherwise prepends `tenant:`, and is idempotent. -/
theorem scope_index_spec :
    (∀ p, scope_index none p = p ∧ scope_index (some "") p = p) ∧
    (∀ c p, has_colon p = true → scope_index c p = p) ∧
    (∀ c p, c ≠ "" → has_colon p = false →
      scope_index (some c) p = c ++ ":" ++ p) ∧
    (∀ c p, scope_index c (scope_index c p) = scope_index c p) := by
  refine ⟨fun p => ⟨rfl, rfl⟩, ?_, ?_, ?_⟩
  · intro c p h
    simp [scope_index, h]
  · intro c p hc hp
    unfold scope_index
    rw [hp]
    simp [opt_truthy, hc]
  · intro c p
    match c with
    | none => rfl
    | some s =>
      by_cases hs : s = ""
      · subst hs; rfl
      · by_cases hp : has_colon p = true
        · have h2 : scope_index (some s) p = p := by
            unfold scope_index
            rw [hp]
            simp
          rw [h2, h2]
        · have h1 : scope_index (some s) p = s ++ ":" ++ p := by
            unfold scope_index
            rw [eq_false_of_ne_true hp]
            simp [opt_truthy, hs]
          rw [h1]
          unfold scope_index
          rw [has_colon_scoped]
          simp [opt_truthy, hs]

/-- C2 witness: the `scope_index` contract evaluated at the repository's
own index patterns. -/
theorem scope_index_spec_witness :
    scope_index (some "lab") "wazuh-alerts-*" = "lab" ++ ":" ++ "wazuh-alerts-*" ∧
    scope_index (some "lab") "lab:wazuh-alerts-*" = "lab:wazuh-alerts-*" :=
  ⟨scope_index_spec.2.2.1 "lab" "wazuh-alerts-*" (by decide) (by rfl),
   scope_index_spec.2.1 (some "lab") "lab:wazuh-alerts-*" (by rfl)⟩

/-- Unfolding step of the retry loop while iterations remain. -/
theorem execute_search_request_step (t : Nat → TransportResult)
    (attempt fuel : Nat) (sleeps : List ℚ) :
    execute_search_request t attempt (fuel + 1) sleeps =
      match t attempt with
      | .response s body =>
        if s = 200 then ⟨body, attempt + 1, sleeps⟩
        else ⟨JVal.obj [], attempt + 1, sleeps⟩
      | .netError =>
        if attempt < max_retries then
          execute_search_request t (attempt + 1) fuel
            (sleeps ++ [retry_backoff * ((attempt : ℚ) + 1)])
        else ⟨JVal.obj [], attempt + 1, sleeps⟩ := rfl

/-- The retry loop runs exactly `range(max_retries + 1)`. -/
theorem exec_search_eq (t : Nat → TransportResult) :
    exec_search t = execute_search_request t 0 3 [] := rfl

/-- A first-attempt response resolves the loop at once: a 200 body is
returned, any other status yields the empty response with no retry. -/
theorem exec_search_response (t : Nat → TransportResult) (s : Int) (b : JVal)
    (h : t 0 = .response s b) :
    exec_search t = ⟨if s = 200 then b else JVal.obj [], 1, []⟩ := by
  rw [exec_search_eq, show (3 : Nat) = 2 + 1 from rfl, execute_search_request_step]
  simp only [h]
  by_cases hs : s = 200 <;> simp [hs]

/-- A response on the second attempt, after one network failure. -/
theorem exec_search_resp1 (t : Nat → TransportResult) (s : Int) (b : JVal)
    (h0 : t 0 = .netError) (h1 : t 1 = .response s b) :
    (exec_search t).body = if s = 200 then b else JVal.obj [] := by
  rw [exec_search_eq, show (3 : Nat) = 2 + 1 from rfl, execute_search_request_step]
  simp only [h0]
  rw [if_pos (by rw [max_retries]; omega),
    show (2 : Nat) = 1 + 1 from rfl, execute_search_request_step]
  simp only [h1]
  by_cases hs : s = 200 <;> simp [hs]

/-- A response on the third attempt, after two network failures. -/
theorem exec_search_resp2 (t : Nat → TransportResult) (s : Int) (b : JVal)
    (h0 : t 0 = .netError) (h1 : t 1 = .netError) (h2 : t 2 = .response s b) :
    (exec_search t).body = if s = 200 then b else JVal.obj [] := by
  rw [exec_search_eq, show (3 : Nat) = 2 + 1 from rfl, execute_search_request_step]
  simp only [h0]
  rw [if_pos (by rw [max_retries]; omega),
    show (2 : Nat) = 1 + 1 from rfl, execute_search_request_step]
  simp only [h1]
  rw [if_pos (by rw [max_retries]; omega),
    show (1 : Nat) = 0 + 1 from rfl, execute_search_request_step]
  simp only [h2]
  by_cases hs : s = 200 <;> simp [hs]

/-- Three successive network failures exhaust the budget: 3 attempts,
backoff sleeps of 1.5 and 3 seconds, and the empty response. -/
theorem exec_search_all_net (t : Nat → TransportResult)
    (h : ∀ k, k < 3 → t k = .netError) :
    exec_search t = ⟨JVal.obj [], 3, [3 / 2, 3]⟩ := by
  rw [exec_search_eq, show (3 : Nat) = 2 + 1 from rfl, execute_search_request_step]
  simp only [h 0 (by omega)]
  rw [if_pos (by rw [max_retries]; omega),
    show (2 : Nat) = 1 + 1 from rfl, execute_search_request_step]
  simp only [h 1 (by omega)]
  rw [if_pos (by rw [max_retries]; omega),
    show (1 : Nat) = 0 + 1 from rfl, execute_search_request_step]
  simp only [h 2 (by omega)]
  rw [if_neg (by rw [max_retries]; omega)]
  simp only [ExecTrace.mk.injEq]
  norm_num [retry_backoff]

/-- C3: `search` never raises — on a non-success status it returns the
empty response immediately with no retry and no backoff sleep, on a 200
status it returns the decoded body, on three successive network-level
failures it returns the empty response after exactly 3 attempts with
backoff sleeps of 1.5 and 3 seconds, and in every case the returned
value is either the empty response or a 200 body delivered within the
3-attempt budget. -/
theorem search_failure_contract :
    (∀ (c : Option String) (t : String → JVal → Nat → TransportResult)
       (index : String) (body : JVal) (s : Int) (b : JVal),
       t (scope_index c index) body 0 = .response s b → s ≠ 200 →
       exec_search (t (scope_index c index) body) = ⟨JVal.obj [], 1, []⟩ ∧
       search c t index body = JVal.obj []) ∧
    (∀ (c : Option String) (t : String → JVal → Nat → TransportResult)
       (index : String) (body : JVal) (b : JVal),
       t (scope_index c index) body 0 = .response 200 b →
       search c t index body = b) ∧
    (∀ (c : Option String) (t : String → JVal → Nat → TransportResult)
       (index : String) (body : JVal),
       (∀ k, k < 3 → t (scope_index c index) body k = .netError) →
       exec_search (t (scope_index c index) body) =
         ⟨JVal.obj [], 3, [3 / 2, 3]⟩ ∧
       search c t index body = JVal.obj []) ∧
    (∀ (c : Option String) (t : String → JVal → Nat → TransportResult)
       (index : String) (body : JVal),
       search c t index body = JVal.obj [] ∨
       ∃ k b, k < 3 ∧ t (scope_index c index) body k = .response 200 b ∧
         search c t index body = b) := by
  refine ⟨?_, ?_, ?_, ?_⟩
  · intro c t index body s b h hs
    have h1 : exec_search (t (scope_index c index) body) = ⟨JVal.obj [], 1, []⟩ := by
      rw [exec_search_response _ s b h, if_neg hs]
    exact ⟨h1, by rw [search, h1]⟩
  · intro c t index body b h
    rw [search, exec_search_response _ 200 b h, if_pos rfl]
  · intro c t index body h
    have h1 := exec_search_all_net (t (scope_index c index) body) h
    exact ⟨h1, by rw [search, h1]⟩
  · intro c t index body
    rcases h0 : t (scope_index c index) body 0 with ⟨s0, b0⟩ | _
    · by_cases hs0 : s0 = 200
      · subst hs0
        exact Or.inr ⟨0, b0, by omega, h0,
          by rw [search, exec_search_response _ 200 b0 h0, if_pos rfl]⟩
      · exact Or.inl (by rw [search, exec_search_response _ s0 b0 h0, if_neg hs0])
    · rcases h1 : t (scope_index c index) body 1 with ⟨s1, b1⟩ | _
      · by_cases hs1 : s1 = 200
        · subst hs1
          exact Or.inr ⟨1, b1, by omega, h1,
            by rw [search, exec_search_resp1 _ 200 b1 h0 h1, if_pos rfl]⟩
        · exact Or.inl (by rw [search, exec_search_resp1 _ s1 b1 h0 h1, if_neg hs1])
      · rcases h2 : t (scope_index c index) body 2 with ⟨s2, b2⟩ | _
        · by_cases hs2 : s2 = 200
          · subst hs2
            exact Or.inr ⟨2, b2, by omega, h2,
              by rw [search, exec_search_resp2 _ 200 b2 h0 h1 h2, if_pos rfl]⟩
          · exact Or.inl
              (by rw [search, exec_search_resp2 _ s2 b2 h0 h1 h2, if_neg hs2])
        · refine Or.inl ?_
          have hall : ∀ k, k < 3 → t (scope_index c index) body k = .netError := by
            intro k hk
            interval_cases k
            · exact h0
            · exact h1
            · exact h2
          rw [search, exec_search_all_net _ hall]

/-- C3 witness: the contract evaluated on three concrete transports — a
persistent 500, a first-try 200, and a persistent network failure. -/
theorem search_failure_contract_witness :
    search none (fun _ _ _ => .response 500 (.str "denied")) "wazuh-alerts-*"
      (.obj []) = JVal.obj [] ∧
    search none (fun _ _ _ => .response 200 (.str "hits")) "wazuh-alerts-*"
      (.obj []) = JVal.str "hits" ∧
    exec_search ((fun _ _ _ => TransportResult.netError)
        (scope_index none "wazuh-alerts-*") (JVal.obj [])) =
      ⟨JVal.obj [], 3, [3 / 2, 3]⟩ :=
  ⟨(search_failure_contract.1 none (fun _ _ _ => .response 500 (.str "denied"))
      "wazuh-alerts-*" (.obj []) 500 (.str "denied") rfl (by decide)).2,
   search_failure_contract.2.1 none (fun _ _ _ => .response 200 (.str "hits"))
     "wazuh-alerts-*" (.obj []) (.str "hits") rfl,
   (search_failure_contract.2.2.1 none (fun _ _ _ => .netError)
      "wazuh-alerts-*" (.obj []) (fun _ _ => rfl)).1⟩

/-- C5: the severity-to-band accumulation is a total, non-overlapping
partition at boundaries 15, 12, 7 — each bucket's count lands in exactly
the band of its level — and the documented example input yields summary
critical 3, high 5, medium 0, low 2. -/
theorem severity_partition_spec :
    (∀ (c h m l lvl cnt : Int),
      (15 ≤ lvl → band_add (c, h, m, l) lvl cnt = (c + cnt, h, m, l)) ∧
      (12 ≤ lvl → lvl < 15 → band_add (c, h, m, l) lvl cnt = (c, h + cnt, m, l)) ∧
      (7 ≤ lvl → lvl < 12 → band_add (c, h, m, l) lvl cnt = (c, h, m + cnt, l)) ∧
      (lvl < 7 → band_add (c, h, m, l) lvl cnt = (c, h, m, l + cnt))) ∧
    severity_breakdown_from (agg_response "severity_breakdown"
      [.obj [("key", .int 18), ("doc_count", .int 3)],
       .obj [("key", .int 12), ("doc_count", .int 5)],
       .obj [("key", .int 3), ("doc_count", .int 2)]]) =
      [("severity_breakdown", .arr
        [.obj [("level", .int 18), ("count", .int 3)],
         .obj [("level", .int 12), ("count", .int 5)],
         .obj [("level", .int 3), ("count", .int 2)]]),
       ("severity_summary", .obj [("critical", .int 3), ("high", .int 5),
                                  ("medium", .int 0), ("low", .int 2)])] := by
  refine ⟨?_, rfl⟩
  intro c h m l lvl cnt
  refine ⟨?_, ?_, ?_, ?_⟩
  · intro h15
    rw [band_add, if_pos (by omega)]
  · intro h12 h15
    rw [band_add, if_neg (by omega), if_pos (by omega)]
  · intro h7 h12
    rw [band_add, if_neg (by omega), if_neg (by omega), if_pos (by omega)]
  · intro h7
    rw [band_add, if_neg (by omega), if_neg (by omega), if_neg (by omega)]

/-- C5 witness: the partition clauses applied at levels 18, 12, 8 and 3
with count 1 from the zero accumulator. -/
theorem severity_partition_spec_witness :
    band_add (0, 0, 0, 0) 18 1 = (1, 0, 0, 0) ∧
    band_add (0, 0, 0, 0) 12 1 = (0, 1, 0, 0) ∧
    band_add (0, 0, 0, 0) 8 1 = (0, 0, 1, 0) ∧
    band_add (0, 0, 0, 0) 3 1 = (0, 0, 0, 1) :=
  ⟨(severity_partition_spec.1 0 0 0 0 18 1).1 (by decide),
   ((severity_partition_spec.1 0 0 0 0 12 1).2.1 (by decide) (by decide)),
   ((severity_partition_spec.1 0 0 0 0 8 1).2.2.1 (by decide) (by decide)),
   ((severity_partition_spec.1 0 0 0 0 3 1).2.2.2 (by decide))⟩

/-- Extracting the buckets of the aggregation an `agg_response` carries
succeeds with exactly those buckets. -/
theorem agg_buckets_response (a : String) (bkts : List JVal) :
    agg_buckets (agg_response a bkts) a = .ok bkts := by
  simp [agg_buckets, agg_response, dict_get, as_list, List.lookup, Bind.bind,
    Except.bind]

/-- The retention test of `_get_top_source_ips` holds exactly when the
key is neither excluded literal. -/
theorem ip_kept_iff (x : String × Int × String) :
    ip_kept x = true ↔ x.1 ≠ "" ∧ x.1 ≠ "0.0.0.0" := by
  simp [ip_kept, not_or]

/-- The source-IP bucket comprehension on encoded buckets filters by the
retention test and maps to output entries. -/
theorem top_source_ips_entries_encoded (bs : List (String × Int × String)) :
    top_source_ips_entries (bs.map encode_ip_bucket) =
      .ok ((bs.filter ip_kept).map ip_entry) := by
  induction bs with
  | nil => rfl
  | cons x r ih =>
    by_cases h1 : x.1 = ""
    · simp [top_source_ips_entries, encode_ip_bucket, getitem, py_eq_str, h1,
        ip_kept, List.filter_cons, ih, Bind.bind, Except.bind]
    · by_cases h2 : x.1 = "0.0.0.0"
      · simp [top_source_ips_entries, encode_ip_bucket, getitem, py_eq_str, h1,
          h2, ip_kept, List.filter_cons, ih, Bind.bind, Except.bind]
      · simp [top_source_ips_entries, encode_ip_bucket, getitem, py_eq_str, h1,
          h2, ip_kept, List.filter_cons, ih, Bind.bind, Except.bind, dict_get,
          index0, ip_entry, List.lookup, pure, Except.pure]

/-- C7 counterexample: the claim's universal form fails.  In a bucket
set holding a perfectly well-formed retained bucket (`8.8.8.8`, count 5,
one country entry) together with an engine-normal bucket whose country
sub-aggregation is present but has an empty bucket list, the whole
fragment collapses to the empty list — so the retained bucket, although
it passes the retention test, does not appear in the output with its key
and document count. -/
theorem retained_bucket_lost_on_empty_country :
    top_source_ips_from (agg_response "top_source_ips"
      [.obj [("key", .str "8.8.8.8"), ("doc_count", .int 5),
             ("country", .obj [("buckets",
               .arr [.obj [("key", .str "US"), ("doc_count", .int 5)]])])],
       .obj [("key", .str "1.1.1.1"), ("doc_count", .int 2),
             ("country", .obj [("buckets", .arr [])])]]) =
      [("top_source_ips", .arr [])] ∧
    ip_kept ("8.8.8.8", 5, "US") = true :=
  ⟨rfl, rfl⟩

/-- C7 (amended): on every bucket set whose country sub-aggregations
each carry an entry, the source-IP fragment equals the
retention-filtered, entry-mapped bucket list; every produced entry stems
from a retained bucket whose key is neither the empty string nor
`0.0.0.0`; and every retained bucket's entry appears in the output. -/
theorem top_source_ips_filter_spec (bs : List (String × Int × String)) :
    top_source_ips_from (agg_response "top_source_ips" (bs.map encode_ip_bucket)) =
      [("top_source_ips", .arr ((bs.filter ip_kept).map ip_entry))] ∧
    (∀ v ∈ (bs.filter ip_kept).map ip_entry,
      ∃ x, x ∈ bs ∧ ip_kept x = true ∧ v = ip_entry x ∧
        x.1 ≠ "" ∧ x.1 ≠ "0.0.0.0") ∧
    (∀ x ∈ bs, ip_kept x = true →
      ip_entry x ∈ (bs.filter ip_kept).map ip_entry) := by
  refine ⟨?_, ?_, ?_⟩
  · simp [top_source_ips_from, top_source_ips_reduce, agg_buckets_response,
      top_source_ips_entries_encoded, Bind.bind, Except.bind]
  · intro v hv
    rcases List.mem_map.mp hv with ⟨x, hx, rfl⟩
    rcases List.mem_filter.mp hx with ⟨hmem, hkept⟩
    exact ⟨x, hmem, hkept, rfl, (ip_kept_iff x).mp hkept⟩
  · intro x hx hkept
    exact List.mem_map_of_mem _ (List.mem_filter.mpr ⟨hx, hkept⟩)

/-- C7 witness: the filter contract on a concrete bucket set holding one
attributable address, one empty key and the all-zero address. -/
theorem top_source_ips_filter_spec_witness :
    top_source_ips_from (agg_response "top_source_ips"
      ([("9.9.9.9", 4, "US"), ("", 2, "ZZ"), ("0.0.0.0", 1, "ZZ")].map
        encode_ip_bucket)) =
      [("top_source_ips", .arr
        (([("9.9.9.9", 4, "US"), ("", 2, "ZZ"), ("0.0.0.0", 1, "ZZ")].filter
          ip_kept).map ip_entry))] ∧
    ip_entry ("9.9.9.9", 4, "US") ∈
      (([("9.9.9.9", 4, "US"), ("", 2, "ZZ"), ("0.0.0.0", 1, "ZZ")].filter
        ip_kept).map ip_entry) :=
  ⟨(top_source_ips_filter_spec _).1,
   (top_source_ips_filter_spec _).2.2 ("9.9.9.9", 4, "US")
     (List.mem_cons_self _ _) rfl⟩

/-- C8 (code behaviour at the failing input): a retained bucket whose
country sub-aggregation is present with an empty bucket list makes the
whole fragment collapse to the empty list (the `[0]` index raises and
the `except` branch returns the empty fragment), whereas the `Unknown`
default is only reached when the sub-aggregation or its bucket list is
missing altogether. -/
theorem country_empty_subagg_drops_fragment :
    top_source_ips_from (agg_response "top_source_ips"
      [.obj [("key", .str "9.9.9.9"), ("doc_count", .int 4),
             ("country", .obj [("buckets", .arr [])])]]) =
      [("top_source_ips", .arr [])] ∧
    top_source_ips_from (agg_response "top_source_ips"
      [.obj [("key", .str "9.9.9.9"), ("doc_count", .int 4)]]) =
      [("top_source_ips", .arr
        [.obj [("ip", .str "9.9.9.9"), ("count", .int 4),
               ("country", .str "Unknown")]])] :=
  ⟨rfl, rfl⟩

/-- C9 counterexample: a trends bucket produces an entry keyed `date`,
not `timestamp` — the produced entry has no `timestamp` key at all. -/
theorem trends_entry_uses_date_key :
    alert_trends_from (agg_response "daily_trends"
      [.obj [("key_as_string", .str "2026-10-01"), ("doc_count", .int 7)]]) =
      [("alert_trends", .arr
        [.obj [("date", .str "2026-10-01"), ("count", .int 7)]])] ∧
    ([("date", JVal.str "2026-10-01"),
      ("count", JVal.int 7)].lookup "timestamp" = none) :=
  ⟨rfl, rfl⟩

/-- The hourly bucket loop on encoded buckets maps each bucket to a
`timestamp`/`count` entry in order. -/
theorem alerts_per_hour_entries_encoded (bs : List (JVal × JVal)) :
    alerts_per_hour_entries (bs.map encode_time_bucket) =
      .ok (bs.map (fun p => JVal.obj [("timestamp", p.1), ("count", p.2)])) := by
  induction bs with
  | nil => rfl
  | cons p r ih =>
    simp [alerts_per_hour_entries, encode_time_bucket, getitem, ih, Bind.bind,
      Except.bind, List.lookup, pure, Except.pure]

/-- The trends bucket loop on encoded buckets maps each bucket to a
`date`/`count` entry in order. -/
theorem alert_trends_entries_encoded (bs : List (JVal × JVal)) :
    alert_trends_entries (bs.map encode_time_bucket) =
      .ok (bs.map (fun p => JVal.obj [("date", p.1), ("count", p.2)])) := by
  induction bs with
  | nil => rfl
  | cons p r ih =>
    simp [alert_trends_entries, encode_time_bucket, getitem, ih, Bind.bind,
      Except.bind, List.lookup, pure, Except.pure]

/-- C9 (amended): on every encoded bucket list, the hourly fragment maps
each bucket to an entry with the formatted key under `timestamp` and the
document count under `count`, while the trends fragment uses the key
`date` for the formatted key; both preserve the engine's bucket order. -/
theorem time_series_entry_mapping (bs : List (JVal × JVal)) :
    alerts_per_hour_from (agg_response "alerts_per_hour" (bs.map encode_time_bucket)) =
      [("alerts_per_hour", .arr
        (bs.map (fun p => JVal.obj [("timestamp", p.1), ("count", p.2)])))] ∧
    alert_trends_from (agg_response "daily_trends" (bs.map encode_time_bucket)) =
      [("alert_trends", .arr
        (bs.map (fun p => JVal.obj [("date", p.1), ("count", p.2)])))] := by
  constructor
  · simp [alerts_per_hour_from, alerts_per_hour_reduce, agg_buckets_response,
      alerts_per_hour_entries_encoded, Bind.bind, Except.bind]
  · simp [alert_trends_from, alert_trends_reduce, agg_buckets_response,
      alert_trends_entries_encoded, Bind.bind, Except.bind]

/-- The agent bucket loop on encoded buckets adds the online and offline
tallies of the list to the accumulators. -/
theorem agent_status_loop_encoded (bs : List (String × List String)) :
    ∀ online offline : Int,
      agent_status_loop (bs.map encode_agent_bucket) online offline =
        .ok (online + count_online bs, offline + count_offline bs) := by
  induction bs with
  | nil =>
    intro online offline
    simp [agent_status_loop, count_online, count_offline]
  | cons b r ih =>
    intro online offline
    rcases hb : b.2 with _ | ⟨s, rest⟩
    · have honl : agent_online b = false := by rw [agent_online, hb]
      have hprs : agent_present b = false := by rw [agent_present, hb]; rfl
      simp [agent_status_loop, encode_agent_bucket, dict_get, List.lookup, hb,
        py_truthy, count_online, count_offline, honl, hprs, ih, Bind.bind,
        Except.bind]
    · have honl : agent_online b =
          (s.toLower == "active" || s.toLower == "connected") := by
        rw [agent_online, hb]
      have hprs : agent_present b = true := by rw [agent_present, hb]; rfl
      by_cases h1 : s.toLower = "active"
      · simp only [agent_status_loop, encode_agent_bucket, dict_get,
          List.lookup, hb, py_truthy, index0, str_lower, Bind.bind, Except.bind,
          List.map_cons, h1]
        simp [ih, count_online, count_offline, honl, hprs, h1, Except.ok.injEq,
          Prod.mk.injEq]
        omega
      · by_cases h2 : s.toLower = "connected"
        · simp only [agent_status_loop, encode_agent_bucket, dict_get,
            List.lookup, hb, py_truthy, index0, str_lower, Bind.bind,
            Except.bind, List.map_cons, h2]
          simp [ih, count_online, count_offline, honl, hprs, h1, h2,
            Except.ok.injEq, Prod.mk.injEq]
          omega
        · simp only [agent_status_loop, encode_agent_bucket, dict_get,
            List.lookup, hb, py_truthy, index0, str_lower, Bind.bind,
            Except.bind, List.map_cons]
          simp [ih, count_online, count_offline, honl, hprs, h1, h2,
            Except.ok.injEq, Prod.mk.injEq]
          omega

/-- Online and offline tallies sum to the number of buckets with a
latest hit. -/
theorem count_present_eq (bs : List (String × List String)) :
    count_online bs + count_offline bs = count_present bs := by
  induction bs with
  | nil => rfl
  | cons b r ih =>
    rcases hb : b.2 with _ | ⟨s, rest⟩
    · have honl : agent_online b = false := by rw [agent_online, hb]
      have hprs : agent_present b = false := by rw [agent_present, hb]; rfl
      simp [count_online, count_offline, count_present, honl, hprs]
      omega
    · have hprs : agent_present b = true := by rw [agent_present, hb]; rfl
      by_cases h1 : agent_online b = true
      · simp [count_online, count_offline, count_present, h1, hprs]
        omega
      · simp [count_online, count_offline, count_present,
          eq_false_of_ne_true h1, hprs]
        omega

/-- C10: on every encoded bucket set, the agent-health fragment counts
online exactly the buckets whose first latest status lowercases to
`active` or `connected`, offline the remaining buckets that have a
latest hit, and total only the buckets with at least one latest hit — a
bucket with an empty top-hits list is counted nowhere, so the total can
be strictly below the number of buckets, as the concrete one-bucket,
zero-hit instance shows. -/
theorem agent_health_spec (bs : List (String × List String)) :
    agent_status_from (agg_response "agents" (bs.map encode_agent_bucket)) =
      [("agent_health", .obj
        [("total", .int (count_online bs + count_offline bs)),
         ("online", .int (count_online bs)),
         ("offline", .int (count_offline bs))])] ∧
    count_online bs + count_offline bs = count_present bs ∧
    count_present [("003", ([] : List String))] = 0 ∧
    agent_status_from (agg_response "agents"
      ([("003", ([] : List String))].map encode_agent_bucket)) =
      [("agent_health", .obj [("total", .int 0), ("online", .int 0),
                              ("offline", .int 0)])] := by
  refine ⟨?_, count_present_eq bs, rfl, rfl⟩
  simp [agent_status_from, agent_status_reduce, agg_buckets_response,
    agent_status_loop_encoded, Bind.bind, Except.bind]

/-! ### Fragment shape lemmas -/

/-- The hourly fragment always carries exactly its own key with a list. -/
theorem alerts_per_hour_from_shape (r : JVal) :
    ∃ v, alerts_per_hour_from r = [("alerts_per_hour", JVal.arr v)] := by
  unfold alerts_per_hour_from
  cases alerts_per_hour_reduce r with
  | error e => exact ⟨[], rfl⟩
  | ok entries => exact ⟨entries, rfl⟩

/-- The top-rules fragment always carries exactly its own key with a list. -/
theorem top_rules_from_shape (r : JVal) :
    ∃ v, top_rules_from r = [("top_rules", JVal.arr v)] := by
  unfold top_rules_from
  cases top_rules_reduce r with
  | error e => exact ⟨[], rfl⟩
  | ok entries => exact ⟨entries, rfl⟩

/-- The top-agents fragment always carries exactly its own key with a list. -/
theorem top_agents_from_shape (r : JVal) :
    ∃ v, top_agents_from r = [("top_agents", JVal.arr v)] := by
  unfold top_agents_from
  cases top_agents_reduce r with
  | error e => exact ⟨[], rfl⟩
  | ok entries => exact ⟨entries, rfl⟩

/-- The source-IP fragment always carries exactly its own key with a list. -/
theorem top_source_ips_from_shape (r : JVal) :
    ∃ v, top_source_ips_from r = [("top_source_ips", JVal.arr v)] := by
  unfold top_source_ips_from
  cases top_source_ips_reduce r with
  | error e => exact ⟨[], rfl⟩
  | ok entries => exact ⟨entries, rfl⟩

/-- The trends fragment always carries exactly its own key with a list. -/
theorem alert_trends_from_shape (r : JVal) :
    ∃ v, alert_trends_from r = [("alert_trends", JVal.arr v)] := by
  unfold alert_trends_from
  cases alert_trends_reduce r with
  | error e => exact ⟨[], rfl⟩
  | ok entries => exact ⟨entries, rfl⟩

/-- The severity fragment always carries its two keys, with the summary
either the empty object (its `except` branch) or the four bands. -/
theorem severity_breakdown_from_shape (r : JVal) :
    ∃ sb ss, severity_breakdown_from r =
      [("severity_breakdown", JVal.arr sb), ("severity_summary", JVal.obj ss)] ∧
      (ss = [] ∨ ∃ c h m l : Int,
        ss = [("critical", .int c), ("high", .int h),
              ("medium", .int m), ("low", .int l)]) := by
  unfold severity_breakdown_from
  cases severity_breakdown_reduce r with
  | error e => exact ⟨[], [], rfl, Or.inl rfl⟩
  | ok v =>
    obtain ⟨ps, c, h, m, l⟩ := v
    exact ⟨severity_entries ps, _, rfl, Or.inr ⟨c, h, m, l, rfl⟩⟩

/-- The agent-health fragment always carries its three counters with
total = online + offline. -/
theorem agent_status_from_shape (r : JVal) :
    ∃ tot onl ofl : Int, agent_status_from r =
      [("agent_health", JVal.obj [("total", .int tot), ("online", .int onl),
                                  ("offline", .int ofl)])] ∧
      tot = onl + ofl := by
  unfold agent_status_from
  cases agent_status_reduce r with
  | error e => exact ⟨0, 0, 0, rfl, by norm_num⟩
  | ok v =>
    obtain ⟨onl, ofl⟩ := v
    exact ⟨onl + ofl, onl, ofl, rfl, rfl⟩

/-- On a resolvable configuration, the statistics result is always the
ten-key object in insertion order, with total = online + offline in the
health fragment, `critical_alerts` read from the summary with default 0,
and `total_alerts` the sum of the summary's bands (0 for the empty
summary object). -/
theorem dashboard_ok_form (gc : Option String → Except String Unit)
    (t : String → JVal → Nat → TransportResult)
    (client_name : Option String) (time_range : String)
    (hgc : gc client_name = .ok ()) :
    ∃ (aph sb tr ta tip atr : List JVal) (ss : List (String × JVal))
      (tot onl ofl : Int) (crit : JVal) (totv : Int),
      get_dashboard_statistics gc t client_name time_range =
        [("alerts_per_hour", .arr aph),
         ("severity_breakdown", .arr sb),
         ("severity_summary", .obj ss),
         ("top_rules", .arr tr),
         ("top_agents", .arr ta),
         ("top_source_ips", .arr tip),
         ("alert_trends", .arr atr),
         ("agent_health", .obj [("total", .int tot), ("online", .int onl),
                                ("offline", .int ofl)]),
         ("critical_alerts", crit),
         ("total_alerts", .int totv)] ∧
      tot = onl + ofl ∧
      crit = (ss.lookup "critical").getD (.int 0) ∧
      ((ss = [] ∧ totv = 0) ∨
       (∃ c h m l : Int,
         ss = [("critical", .int c), ("high", .int h),
               ("medium", .int m), ("low", .int l)] ∧
         crit = JVal.int c ∧ totv = c + h + m + l)) := by
  obtain ⟨aph, h1⟩ := alerts_per_hour_from_shape
    (search client_name t (alert_index_of client_name)
      (alerts_per_hour_query ((time_map.lookup time_range).getD "now-24h")
        ((interval_map.lookup time_range).getD "1h")))
  obtain ⟨sb, ss, h2, hss⟩ := severity_breakdown_from_shape
    (search client_name t (alert_index_of client_name)
      (severity_breakdown_query ((time_map.lookup time_range).getD "now-24h")))
  obtain ⟨tr, h3⟩ := top_rules_from_shape
    (search client_name t (alert_index_of client_name)
      (top_rules_query ((time_map.lookup time_range).getD "now-24h")))
  obtain ⟨ta, h4⟩ := top_agents_from_shape
    (search client_name t (alert_index_of client_name) top_agents_query)
  obtain ⟨tip, h5⟩ := top_source_ips_from_shape
    (search client_name t (alert_index_of client_name)
      (top_source_ips_query ((time_map.lookup time_range).getD "now-24h")))
  obtain ⟨atr, h6⟩ := alert_trends_from_shape
    (search client_name t (alert_index_of client_name)
      (alert_trends_query ((time_map.lookup time_range).getD "now-24h")))
  obtain ⟨tot, onl, ofl, h7, h7e⟩ := agent_status_from_shape
    (search client_name t (monitoring_index_of client_name) agent_status_query)
  rcases hss with hss | ⟨c, h, m, l, hss⟩
  · subst hss
    refine ⟨aph, sb, tr, ta, tip, atr, [], tot, onl, ofl, .int 0, 0, ?_, h7e,
      rfl, Or.inl ⟨rfl, rfl⟩⟩
    simp only [get_dashboard_statistics, stats_pipeline, hgc, Bind.bind,
      Except.bind, get_alerts_per_hour, get_severity_breakdown, get_top_rules,
      get_top_agents, get_top_source_ips, get_alert_trends, get_agent_status]
    rw [h1, h2, h3, h4, h5, h6, h7]
    simp [dict_update, set_key, dict_get, List.lookup, py_truthy, pure,
      Except.pure]
  · subst hss
    refine ⟨aph, sb, tr, ta, tip, atr, _, tot, onl, ofl, .int c,
      c + h + m + l, ?_, h7e, by simp [List.lookup], Or.inr ⟨c, h, m, l, rfl, rfl, rfl⟩⟩
    simp only [get_dashboard_statistics, stats_pipeline, hgc, Bind.bind,
      Except.bind, get_alerts_per_hour, get_severity_breakdown, get_top_rules,
      get_top_agents, get_top_source_ips, get_alert_trends, get_agent_status]
    rw [h1, h2, h3, h4, h5, h6, h7]
    simp [dict_update, set_key, dict_get, List.lookup, py_truthy, sum_values_j,
      sum_values, py_num, pure, Except.pure, Bind.bind, Except.bind]
    rw [show c + (h + (m + l)) = c + h + m + l from by ring]

/-- C6 counterexample: on a pipeline-level failure the returned object
carries no `total_alerts` and no `critical_alerts` key at all, so the
claimed identities cannot hold of it. -/
theorem totals_missing_on_failure :
    (get_dashboard_statistics (fun _ => .error "config lookup failed")
      (fun _ _ _ => .netError) none "24h").lookup "total_alerts" = none ∧
    (get_dashboard_statistics (fun _ => .error "config lookup failed")
      (fun _ _ _ => .netError) none "24h").lookup "critical_alerts" = none ∧
    (get_dashboard_statistics (fun _ => .error "config lookup failed")
      (fun _ _ _ => .netError) none "24h").lookup "error" =
      some (.str "config lookup failed") :=
  ⟨rfl, rfl, rfl⟩

/-- C6 (amended): in every statistics result assembled without a
pipeline-level failure, `critical_alerts` is the summary's critical
value (default 0) and `total_alerts` is the sum of the summary's four
bands, with both 0 when the summary is the empty object; the
pipeline-level failure object carries neither key. -/
theorem totals_match_summary (gc : Option String → Except String Unit)
    (t : String → JVal → Nat → TransportResult)
    (client_name : Option String) (time_range : String)
    (hgc : gc client_name = .ok ()) :
    ∃ ss : List (String × JVal),
      (get_dashboard_statistics gc t client_name time_range).lookup
        "severity_summary" = some (.obj ss) ∧
      (get_dashboard_statistics gc t client_name time_range).lookup
        "critical_alerts" = some ((ss.lookup "critical").getD (.int 0)) ∧
      ((ss = [] ∧
        (get_dashboard_statistics gc t client_name time_range).lookup
          "total_alerts" = some (.int 0)) ∨
       (∃ c h m l : Int,
         ss = [("critical", .int c), ("high", .int h),
               ("medium", .int m), ("low", .int l)] ∧
         (get_dashboard_statistics gc t client_name time_range).lookup
           "critical_alerts" = some (.int c) ∧
         (get_dashboard_statistics gc t client_name time_range).lookup
           "total_alerts" = some (.int (c + h + m + l)))) := by
  obtain ⟨aph, sb, tr, ta, tip, atr, ss, tot, onl, ofl, crit, totv, heq, hte,
    hcrit, hdisj⟩ := dashboard_ok_form gc t client_name time_range hgc
  refine ⟨ss, by rw [heq]; simp [List.lookup], ?_, ?_⟩
  · rw [heq]
    simp [List.lookup, hcrit]
  · rcases hdisj with ⟨hss, htv⟩ | ⟨c, h, m, l, hss, hc, htv⟩
    · exact Or.inl ⟨hss, by rw [heq, htv]; simp [List.lookup]⟩
    · refine Or.inr ⟨c, h, m, l, hss, ?_, ?_⟩
      · rw [heq]
        simp [List.lookup, hc]
      · rw [heq, htv]
        simp [List.lookup]

/-- C6 witness: the totals identities at a concrete backend whose
severity query returns buckets at levels 18, 12 and 3. -/
theorem totals_match_summary_witness :
    ∃ ss : List (String × JVal),
      (get_dashboard_statistics (fun _ => .ok ())
        (fun _ _ _ => .response 200 (agg_response "severity_breakdown"
          [.obj [("key", .int 18), ("doc_count", .int 3)],
           .obj [("key", .int 12), ("doc_count", .int 5)],
           .obj [("key", .int 3), ("doc_count", .int 2)]]))
        none "24h").lookup "severity_summary" = some (.obj ss) ∧
      (get_dashboard_statistics (fun _ => .ok ())
        (fun _ _ _ => .response 200 (agg_response "severity_breakdown"
          [.obj [("key", .int 18), ("doc_count", .int 3)],
           .obj [("key", .int 12), ("doc_count", .int 5)],
           .obj [("key", .int 3), ("doc_count", .int 2)]]))
        none "24h").lookup "critical_alerts" =
        some ((ss.lookup "critical").getD (.int 0)) ∧
      ((ss = [] ∧
        (get_dashboard_statistics (fun _ => .ok ())
          (fun _ _ _ => .response 200 (agg_response "severity_breakdown"
            [.obj [("key", .int 18), ("doc_count", .int 3)],
             .obj [("key", .int 12), ("doc_count", .int 5)],
             .obj [("key", .int 3), ("doc_count", .int 2)]]))
          none "24h").lookup "total_alerts" = some (.int 0)) ∨
       (∃ c h m l : Int,
         ss = [("critical", .int c), ("high", .int h),
               ("medium", .int m), ("low", .int l)] ∧
         (get_dashboard_statistics (fun _ => .ok ())
           (fun _ _ _ => .response 200 (agg_response "severity_breakdown"
             [.obj [("key", .int 18), ("doc_count", .int 3)],
              .obj [("key", .int 12), ("doc_count", .int 5)],
              .obj [("key", .int 3), ("doc_count", .int 2)]]))
           none "24h").lookup "critical_alerts" = some (.int c) ∧
         (get_dashboard_statistics (fun _ => .ok ())
           (fun _ _ _ => .response 200 (agg_response "severity_breakdown"
             [.obj [("key", .int 18), ("doc_count", .int 3)],
              .obj [("key", .int 12), ("doc_count", .int 5)],
              .obj [("key", .int 3), ("doc_count", .int 2)]]))
           none "24h").lookup "total_alerts" = some (.int (c + h + m + l)))) :=
  totals_match_summary _ _ none "24h" rfl

/-- C4 counterexample: a concrete pipeline-level failure returns the
error object, which lacks the two derived totals entirely and carries
the empty object — not four zero bands — under `severity_summary`. -/
theorem stats_shape_counterexample :
    get_dashboard_statistics (fun _ => .error "resolver down")
      (fun _ _ _ => .netError) (some "acme") "7d" = error_stats "resolver down" ∧
    (error_stats "resolver down").lookup "total_alerts" = none ∧
    (error_stats "resolver down").lookup "critical_alerts" = none ∧
    (error_stats "resolver down").lookup "severity_summary" =
      some (.obj []) :=
  ⟨rfl, rfl, rfl, rfl⟩

/-- C4 (amended): every pipeline-level failure returns exactly the
nine-key error object (error string, seven fragment fields at empty
values with `severity_summary` an empty object, and no totals); every
other call returns exactly the ten keys in insertion order, with the
severity summary either the four bands or the empty object. -/
theorem stats_shape_spec :
    (∀ (gc : Option String → Except String Unit)
       (t : String → JVal → Nat → TransportResult)
       (client_name : Option String) (time_range e : String),
       gc client_name = .error e →
       get_dashboard_statistics gc t client_name time_range = error_stats e) ∧
    (∀ (gc : Option String → Except String Unit)
       (t : String → JVal → Nat → TransportResult)
       (client_name : Option String) (time_range : String),
       gc client_name = .ok () →
       (get_dashboard_statistics gc t client_name time_range).map Prod.fst =
         ["alerts_per_hour", "severity_breakdown", "severity_summary",
          "top_rules", "top_agents", "top_source_ips", "alert_trends",
          "agent_health", "critical_alerts", "total_alerts"] ∧
       ∃ ss, (get_dashboard_statistics gc t client_name time_range).lookup
           "severity_summary" = some (.obj ss) ∧
         (ss = [] ∨ ∃ c h m l : Int,
           ss = [("critical", .int c), ("high", .int h),
                 ("medium", .int m), ("low", .int l)])) := by
  constructor
  · intro gc t client_name time_range e hgc
    simp [get_dashboard_statistics, stats_pipeline, hgc, Bind.bind, Except.bind]
  · intro gc t client_name time_range hgc
    obtain ⟨aph, sb, tr, ta, tip, atr, ss, tot, onl, ofl, crit, totv, heq, hte,
      hcrit, hdisj⟩ := dashboard_ok_form gc t client_name time_range hgc
    refine ⟨by rw [heq]; rfl, ss, by rw [heq]; simp [List.lookup], ?_⟩
    rcases hdisj with ⟨hss, _⟩ | ⟨c, h, m, l, hss, _, _⟩
    · exact Or.inl hss
    · exact Or.inr ⟨c, h, m, l, hss⟩

/-- C4 witness: the shape contract at a failing and a succeeding
concrete configuration lookup. -/
theorem stats_shape_spec_witness :
    get_dashboard_statistics (fun _ => .error "down") (fun _ _ _ => .netError)
      none "30d" = error_stats "down" ∧
    (get_dashboard_statistics (fun _ => .ok ()) (fun _ _ _ => .netError)
      none "30d").map Prod.fst =
      ["alerts_per_hour", "severity_breakdown", "severity_summary",
       "top_rules", "top_agents", "top_source_ips", "alert_trends",
       "agent_health", "critical_alerts", "total_alerts"] :=
  ⟨stats_shape_spec.1 _ _ none "30d" "down" rfl,
   (stats_shape_spec.2 _ _ none "30d" rfl).1⟩

/-- C1: partial-failure isolation.  First, for any per-fragment statuses
and bodies delivered by the transport, the whole statistics call equals
the per-fragment assembly in which each fragment is reduced from its own
response alone — a 200 body for fragments whose query succeeded and the
empty response for fragments whose query returned any other status — so
a non-success status on one fragment's query leaves every other fragment
reduced from its own body exactly as in an all-success run.  Second, a
fragment handed the empty response resolves to its empty/zero value.
Third, a fragment whose reduction step raises resolves to its own
`except`-branch empty value, again leaving the others untouched by the
first part. -/
theorem fragment_isolation :
    (∀ (gc : Option String → Except String Unit)
       (t : String → JVal → Nat → TransportResult)
       (client_name : Option String) (time_range : String)
       (st : Frag → Int) (bd : Frag → JVal),
       gc client_name = .ok () →
       (∀ j : Frag, t (frag_index client_name j)
         (frag_query ((time_map.lookup time_range).getD "now-24h")
           ((interval_map.lookup time_range).getD "1h") j) 0 =
           .response (st j) (bd j)) →
       get_dashboard_statistics gc t client_name time_range =
         dashboard_from_responses
           (fun j => if st j = 200 then bd j else JVal.obj [])) ∧
    (∀ i : Frag, frag_entries (JVal.obj []) i = empty_frag_non200 i) ∧
    (∀ (i : Frag) (m : JVal), frag_raises m i →
      frag_entries m i = empty_frag_exc i) := by
  refine ⟨?_, ?_, ?_⟩
  · intro gc t client_name time_range st bd hgc hresp
    have h0 := hresp Frag.hours
    have h1 := hresp Frag.sev
    have h2 := hresp Frag.rules
    have h3 := hresp Frag.agentsTop
    have h4 := hresp Frag.ips
    have h5 := hresp Frag.trends
    have h6 := hresp Frag.health
    simp only [frag_index, frag_query] at h0 h1 h2 h3 h4 h5 h6
    have s0 : search client_name t (alert_index_of client_name)
        (alerts_per_hour_query ((time_map.lookup time_range).getD "now-24h")
          ((interval_map.lookup time_range).getD "1h")) =
        (if st Frag.hours = 200 then bd Frag.hours else JVal.obj []) := by
      simp only [search]
      rw [exec_search_response _ _ _ h0]
    have s1 : search client_name t (alert_index_of client_name)
        (severity_breakdown_query ((time_map.lookup time_range).getD "now-24h")) =
        (if st Frag.sev = 200 then bd Frag.sev else JVal.obj []) := by
      simp only [search]
      rw [exec_search_response _ _ _ h1]
    have s2 : search client_name t (alert_index_of client_name)
        (top_rules_query ((time_map.lookup time_range).getD "now-24h")) =
        (if st Frag.rules = 200 then bd Frag.rules else JVal.obj []) := by
      simp only [search]
      rw [exec_search_response _ _ _ h2]
    have s3 : search client_name t (alert_index_of client_name)
        top_agents_query =
        (if st Frag.agentsTop = 200 then bd Frag.agentsTop else JVal.obj []) := by
      simp only [search]
      rw [exec_search_response _ _ _ h3]
    have s4 : search client_name t (alert_index_of client_name)
        (top_source_ips_query ((time_map.lookup time_range).getD "now-24h")) =
        (if st Frag.ips = 200 then bd Frag.ips else JVal.obj []) := by
      simp only [search]
      rw [exec_search_response _ _ _ h4]
    have s5 : search client_name t (alert_index_of client_name)
        (alert_trends_query ((time_map.lookup time_range).getD "now-24h")) =
        (if st Frag.trends = 200 then bd Frag.trends else JVal.obj []) := by
      simp only [search]
      rw [exec_search_response _ _ _ h5]
    have s6 : search client_name t (monitoring_index_of client_name)
        agent_status_query =
        (if st Frag.health = 200 then bd Frag.health else JVal.obj []) := by
      simp only [search]
      rw [exec_search_response _ _ _ h6]
    simp only [get_dashboard_statistics, stats_pipeline, hgc, Bind.bind,
      Except.bind, get_alerts_per_hour, get_severity_breakdown, get_top_rules,
      get_top_agents, get_top_source_ips, get_alert_trends, get_agent_status,
      dashboard_from_responses, stats_from_responses]
    rw [s0, s1, s2, s3, s4, s5, s6]
  · intro i
    cases i <;> rfl
  · intro i m h
    cases i with
    | hours =>
      obtain ⟨e, he⟩ := h
      simp [frag_entries, alerts_per_hour_from, he, empty_frag_exc]
    | sev =>
      obtain ⟨e, he⟩ := h
      simp [frag_entries, severity_breakdown_from, he, empty_frag_exc]
    | rules =>
      obtain ⟨e, he⟩ := h
      simp [frag_entries, top_rules_from, he, empty_frag_exc]
    | agentsTop =>
      obtain ⟨e, he⟩ := h
      simp [frag_entries, top_agents_from, he, empty_frag_exc]
    | ips =>
      obtain ⟨e, he⟩ := h
      simp [frag_entries, top_source_ips_from, he, empty_frag_exc]
    | trends =>
      obtain ⟨e, he⟩ := h
      simp [frag_entries, alert_trends_from, he, empty_frag_exc]
    | health =>
      obtain ⟨e, he⟩ := h
      simp [frag_entries, agent_status_from, he, empty_frag_exc]

/-- C1 witness: a concrete backend that answers the severity query with
a 500 and every other query with an empty 200 — the call equals the
per-fragment assembly; the empty response resolves the severity fragment
to its zero value; and a malformed severity body resolves it to its
`except` value. -/
theorem fragment_isolation_witness :
    get_dashboard_statistics (fun _ => .ok ()) demo_transport (some "lab")
        "24h" =
      dashboard_from_responses (fun j =>
        if (if j = Frag.sev then (500 : Int) else 200) = 200 then
          (if j = Frag.sev then JVal.null else JVal.obj [])
        else JVal.obj []) ∧
    frag_entries (JVal.obj []) Frag.sev = empty_frag_non200 Frag.sev ∧
    frag_entries (JVal.obj [("aggregations", .int 0)]) Frag.sev =
      empty_frag_exc Frag.sev :=
  ⟨fragment_isolation.1 (fun _ => .ok ()) demo_transport (some "lab") "24h"
      (fun j => if j = Frag.sev then 500 else 200)
      (fun j => if j = Frag.sev then JVal.null else JVal.obj []) rfl
      (by intro j; cases j <;> rfl),
   fragment_isolation.2.1 Frag.sev,
   fragment_isolation.2.2 Frag.sev (JVal.obj [("aggregations", .int 0)])
     ⟨"AttributeError", rfl⟩⟩

end EagleEye
